import Mathlib

/-!
Verification of the smart-learn-hub backend (src/app.py) against its
natural-language specification.

The Flask application is shallowly embedded: the per-client session dict,
the sqlite `user` and `progress` tables and the auto-increment id counter
become an explicit `AppState`; each route handler becomes a function from
state and request data to a new state and a `Response` (HTTP status code
plus a JSON body).  JSON values are modelled by the inductive `PyVal`;
`quizzes.json` — the external read-only catalog — is an association list
from subject keys to JSON dicts, and an unreadable catalog file is the
`none` case of an `Option Catalog` argument.  A handler that lets an
exception other than FileNotFoundError escape (the framework then produces
a generic error page) is modelled as returning `none`.
-/

namespace SmartLearnHub

/-- JSON-like Python values, as produced by request parsing and jsonify. -/
inductive PyVal : Type where
  | pstr : String → PyVal
  | pint : Int → PyVal
  | pbool : Bool → PyVal
  | pnone : PyVal
  | plist : List PyVal → PyVal
  | pdict : List (String × PyVal) → PyVal

/-- A row of the `user` table: id, full_name, email, nickname, password (hash). -/
structure User where
  id : Nat
  full_name : String
  email : String
  nickname : String
  password : String
deriving DecidableEq, Repr

/-- A row of the `progress` table (the surrogate `id` column is represented
by the position in the list; `update_progress` rewrites the row in place). -/
structure ProgressRec where
  user_id : Nat
  subject : String
  score : Int
deriving DecidableEq, Repr

/-- The Flask session dict: the keys `user_id` and `user_nickname`,
each present or absent. -/
structure SessionState where
  user_id : Option Nat
  user_nickname : Option String
deriving DecidableEq, Repr

/-- The mutable state a request handler sees: the session bound to the
client and the two database tables (`nextUserId` models sqlite's
auto-increment primary key of `user`). -/
structure AppState where
  session : SessionState
  users : List User
  progress : List ProgressRec
  nextUserId : Nat
deriving DecidableEq, Repr

/-- An HTTP response: status code and JSON body. -/
structure Response where
  status : Nat
  body : PyVal

/-- A catalog entry of quizzes.json: a JSON dict. -/
abbrev Entry := List (String × PyVal)

/-- The quizzes.json catalog: subject key to entry. -/
abbrev Catalog := List (String × Entry)

/-- Python dict .get with a default: d.get(k, dflt). -/
def dget (d : Entry) (k : String) (dflt : PyVal) : PyVal :=
  match d.lookup k with
  | some v => v
  | none => dflt

/-- Modelled from the spec: werkzeug.security.generate_password_hash is an
external collaborator (a salted, slow one-way hash whose output records the
scheme in a method prefix).  It is modelled as a deterministic injective
tagging, which keeps the two properties the claims use: the stored value is
never the plaintext, and verification succeeds exactly on the hashed
password. -/
def generate_password_hash (p : String) : String :=
  "pbkdf2:sha256$" ++ p

/-- Modelled from the spec: werkzeug.security.check_password_hash. -/
def check_password_hash (stored candidate : String) : Bool :=
  stored == generate_password_hash candidate

/-- Python truthiness of a request field obtained by data.get:
absent (None) and the empty string are falsy. -/
def truthy : Option String → Bool
  | none => false
  | some s => !(s == "")

/-- POST /api/register (src/app.py, register). -/
def register (st : AppState) (fullName email nickname password : Option String) :
    AppState × Response :=
  if !(truthy fullName && truthy email && truthy nickname && truthy password) then
    (st, ⟨400, .pdict [("success", .pbool false),
      ("message", .pstr "Tous les champs sont requis.")]⟩)
  else
    if st.users.any (fun u => u.nickname == nickname.getD "" || u.email == email.getD "") then
      (st, ⟨409, .pdict [("success", .pbool false),
        ("message", .pstr "Ce pseudo ou cet email est déjà utilisé.")]⟩)
    else
      ({ st with
          users := st.users ++ [⟨st.nextUserId, fullName.getD "", email.getD "",
            nickname.getD "", generate_password_hash (password.getD "")⟩],
          nextUserId := st.nextUserId + 1 },
       ⟨200, .pdict [("success", .pbool true),
        ("message", .pstr "Inscription réussie ! Vous pouvez maintenant vous connecter.")]⟩)

/-- The SELECT of login: a missing nickname field binds SQL NULL, which
matches no row; otherwise the first row with that nickname. -/
def login_lookup (st : AppState) (nickname : Option String) : Option User :=
  match nickname with
  | none => none
  | some nick => st.users.find? (fun u => u.nickname == nick)

/-- POST /api/login (src/app.py, login). -/
def login (st : AppState) (nickname password : Option String) : AppState × Response :=
  match login_lookup st nickname with
  | some u =>
    if check_password_hash u.password (password.getD "") then
      ({ st with session := ⟨some u.id, some u.nickname⟩ },
       ⟨200, .pdict [("success", .pbool true)]⟩)
    else
      (st, ⟨401, .pdict [("success", .pbool false),
        ("message", .pstr "Pseudo ou mot de passe incorrect.")]⟩)
  | none =>
    (st, ⟨401, .pdict [("success", .pbool false),
      ("message", .pstr "Pseudo ou mot de passe incorrect.")]⟩)

/-- Route /api/logout (src/app.py, logout): session.clear() then success. -/
def logout (st : AppState) : AppState × Response :=
  ({ st with session := ⟨none, none⟩ }, ⟨200, .pdict [("success", .pbool true)]⟩)

/-- Route /api/check_session (src/app.py, check_session). -/
def check_session (st : AppState) : Response :=
  match st.session.user_id with
  | some _ => ⟨200, .pdict [("logged_in", .pbool true)]⟩
  | none => ⟨200, .pdict [("logged_in", .pbool false)]⟩

/-- get_user_data (src/app.py): None when no session or when the bound
user id matches no user row; otherwise the profile dict with the progress
mapping. -/
def get_user_data (st : AppState) : Option PyVal :=
  match st.session.user_id with
  | none => none
  | some uid =>
    match st.users.find? (fun u => u.id == uid) with
    | none => none
    | some u =>
      some (.pdict [("id", .pint (u.id : Int)), ("fullName", .pstr u.full_name),
        ("email", .pstr u.email), ("nickname", .pstr u.nickname),
        ("progress", .pdict ((st.progress.filter (fun r => r.user_id == uid)).map
          (fun r => (r.subject, PyVal.pint r.score))))])

/-- The summary dict built for one catalog entry inside
get_all_courses_info (src/app.py lines 153-161). -/
def course_summary (d : Entry) : Entry :=
  [("title", dget d "title" (.pstr "Sans titre")),
   ("description", dget d "description" (.pstr "")),
   ("emoji", dget d "emoji" (.pstr "❓")),
   ("professor", dget d "professor" (.pstr "N/A")),
   ("pdf_link", dget d "pdf_link" .pnone)]

/-- get_all_courses_info (src/app.py): the dict comprehension over the
catalog. -/
def get_all_courses_info (quizzes : Catalog) : Catalog :=
  quizzes.map (fun se => (se.1, course_summary se.2))

/-- The course summaries as a JSON value. -/
def courses_py (quizzes : Catalog) : PyVal :=
  .pdict ((get_all_courses_info quizzes).map (fun se => (se.1, PyVal.pdict se.2)))

/-- None serialized by jsonify becomes JSON null. -/
def optToPy : Option PyVal → PyVal
  | none => PyVal.pnone
  | some v => v

/-- GET /api/data (src/app.py, get_app_data).  The catalog read is not
wrapped in try/except here, so an unreadable catalog (src = none) lets
FileNotFoundError escape: modelled as the result none. -/
def get_app_data (st : AppState) (src : Option Catalog) : Option Response :=
  match st.session.user_id with
  | none => some ⟨401, .pdict [("error", .pstr "Non autorisé")]⟩
  | some _ =>
    match src with
    | none => none
    | some quizzes =>
      some ⟨200, .pdict [("user", optToPy (get_user_data st)),
        ("courses", courses_py quizzes)]⟩

/-- GET /api/courses (src/app.py, get_courses): public, with the
FileNotFoundError handler. -/
def get_courses (src : Option Catalog) : Response :=
  match src with
  | none => ⟨500, .pdict [("error", .pstr "Fichier de quiz non trouvé")]⟩
  | some quizzes => ⟨200, courses_py quizzes⟩

/-- GET /api/quiz/subject (src/app.py, get_quiz).  Auth is checked first;
then the catalog is read (FileNotFoundError caught as 500); a present
subject returns its questions value — an entry without a questions key
raises KeyError, which no handler catches (result none). -/
def get_quiz (st : AppState) (src : Option Catalog) (subject : String) : Option Response :=
  match st.session.user_id with
  | none => some ⟨401, .pdict [("error", .pstr "Non autorisé")]⟩
  | some _ =>
    match src with
    | none => some ⟨500, .pdict [("error", .pstr "Fichier de quiz non trouvé")]⟩
    | some quizzes =>
      match quizzes.lookup subject with
      | some entry =>
        match entry.lookup "questions" with
        | some qs => some ⟨200, qs⟩
        | none => none
      | none => some ⟨404, .pdict [("error", .pstr "Quiz non trouvé")]⟩

/-- The UPDATE of update_progress: rewrite the score of the row the
preceding SELECT fetched — the first row matching (user_id, subject). -/
def set_score : List ProgressRec → Nat → String → Int → List ProgressRec
  | [], _, _, _ => []
  | r :: rs, uid, subject, score =>
    if r.user_id == uid && r.subject == subject then
      { r with score := score } :: rs
    else
      r :: set_score rs uid subject score

/-- POST /api/progress (src/app.py, update_progress). -/
def update_progress (st : AppState) (subject : String) (score : Int) :
    AppState × Response :=
  match st.session.user_id with
  | none => (st, ⟨401, .pdict [("error", .pstr "Non autorisé")]⟩)
  | some uid =>
    match st.progress.find? (fun r => r.user_id == uid && r.subject == subject) with
    | some existing =>
      if score > existing.score then
        ({ st with progress := set_score st.progress uid subject score },
         ⟨200, .pdict [("success", .pbool true)]⟩)
      else
        (st, ⟨200, .pdict [("success", .pbool true)]⟩)
    | none =>
      ({ st with progress := st.progress ++ [⟨uid, subject, score⟩] },
       ⟨200, .pdict [("success", .pbool true)]⟩)

/-- The stored score for a (user, subject) pair, as the SELECT of
update_progress reads it. -/
def storedScore (st : AppState) (uid : Nat) (subject : String) : Option Int :=
  (st.progress.find? (fun r => r.user_id == uid && r.subject == subject)).map
    (fun r => r.score)

/-! ## Concrete states used by witnesses and counterexamples -/

/-- A state with one registered user who is logged in. -/
def stLoggedIn : AppState :=
  ⟨⟨some 1, some "alice"⟩,
   [⟨1, "Alice A", "alice@example.com", "alice", generate_password_hash "pw1"⟩],
   [], 2⟩

/-- stLoggedIn with one progress row (math, 50) for user 1. -/
def stWithMath : AppState := { stLoggedIn with progress := [⟨1, "math", 50⟩] }

/-- A state with no session and no users. -/
def stAnon : AppState := ⟨⟨none, none⟩, [], [], 1⟩

/-- A state whose session is bound to a user id that matches no user row. -/
def stDangling : AppState := ⟨⟨some 99, some "ghost"⟩, [], [], 1⟩

/-- A small catalog with one subject. -/
def exCatalog : Catalog :=
  [("math", [("title", .pstr "Maths"), ("questions", .plist [.pstr "q1"])])]

/-! ## Helper lemmas about the progress table -/

theorem find?_row_append_left {l l2 : List ProgressRec} {uid : Nat}
    {subj : String} {r : ProgressRec}
    (h : l.find? (fun r => r.user_id == uid && r.subject == subj) = some r) :
    (l ++ l2).find? (fun r => r.user_id == uid && r.subject == subj) = some r := by
  rw [List.find?_append, h]
  rfl

theorem set_score_find?_other (l : List ProgressRec) (uid2 : Nat)
    (subj2 : String) (v : Int) (uid : Nat) (subj : String)
    (hk : ¬(uid = uid2 ∧ subj = subj2)) :
    (set_score l uid2 subj2 v).find? (fun r => r.user_id == uid && r.subject == subj)
      = l.find? (fun r => r.user_id == uid && r.subject == subj) := by
  induction l with
  | nil => rfl
  | cons r rs ih =>
    cases hc : (r.user_id == uid2 && r.subject == subj2) with
    | true =>
      have hm : (r.user_id == uid && r.subject == subj) = false := by
        simp only [Bool.and_eq_true, beq_iff_eq] at hc
        apply Bool.eq_false_iff.mpr
        intro hcon
        simp only [Bool.and_eq_true, beq_iff_eq] at hcon
        exact hk ⟨hcon.1.symm.trans hc.1, hcon.2.symm.trans hc.2⟩
      simp [set_score, hc, List.find?_cons, hm]
    | false =>
      cases hp : (r.user_id == uid && r.subject == subj) with
      | true => simp [set_score, hc, List.find?_cons, hp]
      | false => simp [set_score, hc, List.find?_cons, hp, ih]

theorem set_score_find?_self (l : List ProgressRec) (uid : Nat) (subj : String)
    (v : Int) (r0 : ProgressRec)
    (h : l.find? (fun r => r.user_id == uid && r.subject == subj) = some r0) :
    (set_score l uid subj v).find? (fun r => r.user_id == uid && r.subject == subj)
      = some { r0 with score := v } := by
  induction l with
  | nil => simp at h
  | cons r rs ih =>
    cases hc : (r.user_id == uid && r.subject == subj) with
    | true =>
      rw [List.find?_cons, hc] at h
      injection h with h
      subst h
      simp [set_score, hc, List.find?_cons]
    | false =>
      rw [List.find?_cons, hc] at h
      simp [set_score, hc, List.find?_cons, ih h]

theorem storedScore_update_progress_mono (st : AppState) (subj2 : String) (v : Int)
    (uid : Nat) (subj : String) (s0 : Int)
    (h : storedScore st uid subj = some s0) :
    ∃ s1, storedScore (update_progress st subj2 v).1 uid subj = some s1 ∧ s0 ≤ s1 := by
  obtain ⟨r0, hfind, hs0⟩ := Option.map_eq_some'.mp h
  cases hsess : st.session.user_id with
  | none =>
    refine ⟨s0, ?_, le_refl s0⟩
    simp only [update_progress, hsess]
    exact h
  | some uid2 =>
    cases hf2 : st.progress.find? (fun r => r.user_id == uid2 && r.subject == subj2) with
    | none =>
      refine ⟨s0, ?_, le_refl s0⟩
      simp only [update_progress, hsess, hf2, storedScore]
      rw [find?_row_append_left hfind]
      simp [hs0]
    | some existing =>
      by_cases hgt : v > existing.score
      · by_cases hkey : uid = uid2 ∧ subj = subj2
        · obtain ⟨h1, h2⟩ := hkey
          subst h1
          subst h2
          have hre : existing = r0 := by
            rw [hfind] at hf2
            exact (Option.some_inj.mp hf2).symm
          refine ⟨v, ?_, ?_⟩
          · simp only [update_progress, hsess, hfind, if_pos (hre ▸ hgt), storedScore]
            rw [set_score_find?_self _ _ _ _ _ hfind]
            rfl
          · exact le_of_lt (hs0 ▸ hre ▸ hgt)
        · refine ⟨s0, ?_, le_refl s0⟩
          simp only [update_progress, hsess, hf2, if_pos hgt, storedScore]
          rw [set_score_find?_other _ _ _ _ _ _ hkey, hfind]
          simp [hs0]
      · refine ⟨s0, ?_, le_refl s0⟩
        simp only [update_progress, hsess, hf2, if_neg hgt]
        exact h

theorem storedScore_foldl_mono (ops : List (String × Int)) (st : AppState)
    (uid : Nat) (subj : String) (s0 : Int)
    (h : storedScore st uid subj = some s0) :
    ∃ s1, storedScore
        (ops.foldl (fun acc op => (update_progress acc op.1 op.2).1) st) uid subj
      = some s1 ∧ s0 ≤ s1 := by
  induction ops generalizing st s0 with
  | nil => exact ⟨s0, h, le_refl s0⟩
  | cons op rest ih =>
    obtain ⟨s1, h1, hle1⟩ := storedScore_update_progress_mono st op.1 op.2 uid subj s0 h
    obtain ⟨s2, h2, hle2⟩ := ih _ s1 h1
    exact ⟨s2, h2, le_trans hle1 hle2⟩

/-! ## Claims -/

/-- Claim C1: update_progress inserts a new record with the given score when
no progress record exists for (user, subject); when one exists it overwrites
the stored score only if the new score is strictly greater and returns
success while leaving the stored score unchanged for an equal or lower one;
consequently the stored score per (user, subject) is monotonically
non-decreasing across any sequence of update_progress calls. -/
theorem claim_C1_update_progress_merge (st : AppState) (uid : Nat) (subj : String)
    (score : Int) :
    (st.session.user_id = some uid → storedScore st uid subj = none →
      storedScore (update_progress st subj score).1 uid subj = some score ∧
      (update_progress st subj score).2 = ⟨200, .pdict [("success", .pbool true)]⟩) ∧
    (st.session.user_id = some uid → ∀ s0, storedScore st uid subj = some s0 →
      storedScore (update_progress st subj score).1 uid subj
        = some (if score > s0 then score else s0) ∧
      (update_progress st subj score).2 = ⟨200, .pdict [("success", .pbool true)]⟩) ∧
    (∀ ops : List (String × Int), ∀ s0, storedScore st uid subj = some s0 →
      ∃ s1, storedScore
          (ops.foldl (fun acc op => (update_progress acc op.1 op.2).1) st) uid subj
        = some s1 ∧ s0 ≤ s1) := by
  refine ⟨?_, ?_, ?_⟩
  · intro hsess hnone
    have hfind : st.progress.find? (fun r => r.user_id == uid && r.subject == subj)
        = none := Option.map_eq_none'.mp hnone
    constructor
    · simp only [update_progress, hsess, hfind, storedScore]
      rw [List.find?_append, hfind]
      simp
    · simp only [update_progress, hsess, hfind]
  · intro hsess s0 hsome
    obtain ⟨r0, hfind, hs0⟩ := Option.map_eq_some'.mp hsome
    cases hgt : decide (score > r0.score) with
    | true =>
      have hgt' : score > r0.score := of_decide_eq_true hgt
      constructor
      · simp only [update_progress, hsess, hfind, if_pos hgt', storedScore]
        rw [set_score_find?_self _ _ _ _ _ hfind]
        simp [hs0 ▸ hgt']
      · simp only [update_progress, hsess, hfind, if_pos hgt']
    | false =>
      have hgt' : ¬(score > r0.score) := of_decide_eq_false hgt
      constructor
      · simp only [update_progress, hsess, hfind, if_neg hgt']
        rw [if_neg (hs0 ▸ hgt')]
        exact hsome
      · simp only [update_progress, hsess, hfind, if_neg hgt']
  · intro ops s0 hsome
    exact storedScore_foldl_mono ops st uid subj s0 hsome

/-- Witness for claim C1: inserting into an empty progress table stores the
given score; a lower re-submission is a success that leaves 50 stored; a
later sequence of calls never decreases the stored score. -/
theorem claim_C1_update_progress_merge_witness :
    (storedScore (update_progress stLoggedIn "math" 50).1 1 "math" = some 50 ∧
      (update_progress stLoggedIn "math" 50).2
        = ⟨200, .pdict [("success", .pbool true)]⟩) ∧
    (storedScore (update_progress stWithMath "math" 30).1 1 "math"
        = some (if (30 : Int) > 50 then 30 else 50) ∧
      (update_progress stWithMath "math" 30).2
        = ⟨200, .pdict [("success", .pbool true)]⟩) ∧
    (∃ s1, storedScore ([("math", 30), ("math", 80)].foldl
          (fun acc op => (update_progress acc op.1 op.2).1) stWithMath) 1 "math"
        = some s1 ∧ (50 : Int) ≤ s1) :=
  ⟨(claim_C1_update_progress_merge stLoggedIn 1 "math" 50).1 rfl rfl,
   (claim_C1_update_progress_merge stWithMath 1 "math" 30).2.1 rfl 50 rfl,
   (claim_C1_update_progress_merge stWithMath 1 "math" 80).2.2
     [("math", 30), ("math", 80)] 50 rfl⟩

/-- The modelled hash output is never the plaintext: the scheme prefix makes
it strictly longer. -/
theorem generate_password_hash_ne (p : String) : generate_password_hash p ≠ p := by
  intro h
  have hl := congrArg String.length h
  rw [generate_password_hash, String.length_append] at hl
  have hc : ("pbkdf2:sha256$" : String).length = 14 := rfl
  omega

/-- Claim C2: register fails with 400 and inserts no user when any of the
four fields is missing or empty; fails with 409 and inserts no user when the
nickname or the email is already taken, whatever the other fields hold;
otherwise appends exactly one user whose stored password is the hash, not
the plaintext, and returns success. -/
theorem claim_C2_register_outcomes (st : AppState)
    (fullName email nickname password : Option String) :
    ((truthy fullName && truthy email && truthy nickname && truthy password) = false →
      register st fullName email nickname password
        = (st, ⟨400, .pdict [("success", .pbool false),
            ("message", .pstr "Tous les champs sont requis.")]⟩)) ∧
    ((truthy fullName && truthy email && truthy nickname && truthy password) = true →
      st.users.any (fun u => u.nickname == nickname.getD "" || u.email == email.getD "")
        = true →
      register st fullName email nickname password
        = (st, ⟨409, .pdict [("success", .pbool false),
            ("message", .pstr "Ce pseudo ou cet email est déjà utilisé.")]⟩)) ∧
    ((truthy fullName && truthy email && truthy nickname && truthy password) = true →
      st.users.any (fun u => u.nickname == nickname.getD "" || u.email == email.getD "")
        = false →
      (register st fullName email nickname password).1.users
        = st.users ++ [⟨st.nextUserId, fullName.getD "", email.getD "",
            nickname.getD "", generate_password_hash (password.getD "")⟩] ∧
      generate_password_hash (password.getD "") ≠ password.getD "" ∧
      (register st fullName email nickname password).2.status = 200) := by
  refine ⟨?_, ?_, ?_⟩
  · intro hv
    simp [register, hv]
  · intro hv hc
    simp [register, hv, hc]
  · intro hv hc
    exact ⟨by simp [register, hv, hc], generate_password_hash_ne _,
      by simp [register, hv, hc]⟩

/-- Witness for claim C2: a missing full name gives 400 and no insert; the
taken nickname alice gives 409 and no insert even with fresh email; a fresh
nickname and email insert exactly one user with the hashed password. -/
theorem claim_C2_register_outcomes_witness :
    (register stLoggedIn none (some "e@x") (some "bob") (some "pw")
      = (stLoggedIn, ⟨400, .pdict [("success", .pbool false),
          ("message", .pstr "Tous les champs sont requis.")]⟩)) ∧
    (register stLoggedIn (some "Bob B") (some "bob@example.com") (some "alice")
        (some "pw2")
      = (stLoggedIn, ⟨409, .pdict [("success", .pbool false),
          ("message", .pstr "Ce pseudo ou cet email est déjà utilisé.")]⟩)) ∧
    ((register stLoggedIn (some "Bob B") (some "bob@example.com") (some "bob")
        (some "pw2")).1.users
      = stLoggedIn.users ++ [⟨stLoggedIn.nextUserId, "Bob B", "bob@example.com",
          "bob", generate_password_hash "pw2"⟩] ∧
      generate_password_hash "pw2" ≠ "pw2" ∧
      (register stLoggedIn (some "Bob B") (some "bob@example.com") (some "bob")
        (some "pw2")).2.status = 200) :=
  ⟨(claim_C2_register_outcomes stLoggedIn none (some "e@x") (some "bob")
      (some "pw")).1 rfl,
   (claim_C2_register_outcomes stLoggedIn (some "Bob B") (some "bob@example.com")
      (some "alice") (some "pw2")).2.1 rfl rfl,
   (claim_C2_register_outcomes stLoggedIn (some "Bob B") (some "bob@example.com")
      (some "bob") (some "pw2")).2.2 rfl rfl⟩

/-- Claim C3: a failed login — nickname unknown, or user found but password
verification failed — yields one and the same 401 response in both cases, so
the two failure causes are indistinguishable to the caller. -/
theorem claim_C3_login_indistinguishable (st : AppState) (n1 p1 n2 p2 : Option String)
    (u : User)
    (h1 : login_lookup st n1 = none)
    (h2 : login_lookup st n2 = some u)
    (h3 : check_password_hash u.password (p2.getD "") = false) :
    (login st n1 p1).2 = (login st n2 p2).2 ∧
    (login st n1 p1).2.status = 401 := by
  constructor
  · simp [login, h1, h2, h3]
  · simp [login, h1]

/-- Witness for claim C3: with one registered user alice, logging in as the
unknown bob and logging in as alice with a wrong password produce equal
responses with status 401. -/
theorem claim_C3_login_indistinguishable_witness :
    (login stLoggedIn (some "bob") (some "x")).2
      = (login stLoggedIn (some "alice") (some "wrong")).2 ∧
    (login stLoggedIn (some "bob") (some "x")).2.status = 401 :=
  claim_C3_login_indistinguishable stLoggedIn (some "bob") (some "x")
    (some "alice") (some "wrong")
    ⟨1, "Alice A", "alice@example.com", "alice", generate_password_hash "pw1"⟩
    rfl rfl rfl

/-- Claim C9: register leaves the session untouched in every case, so
check_session reports the same logged-in status right after any
registration as right before it. -/
theorem claim_C9_register_session_frame (st : AppState)
    (fullName email nickname password : Option String) :
    (register st fullName email nickname password).1.session = st.session ∧
    check_session (register st fullName email nickname password).1
      = check_session st := by
  have hs : (register st fullName email nickname password).1.session = st.session := by
    unfold register
    split
    · rfl
    · split <;> rfl
  refine ⟨hs, ?_⟩
  unfold check_session
  rw [hs]

/-- Claim C4 counterexample: with a logged-in user and a catalog containing
only math, update_progress persists a record whose subject chemistry is
absent from the catalog — the handler never consults the catalog at all. -/
theorem claim_C4_counterexample :
    (update_progress stLoggedIn "chemistry" 10).1.progress
      = [⟨1, "chemistry", 10⟩] ∧
    exCatalog.lookup "chemistry" = none :=
  ⟨rfl, rfl⟩

/-- Claim C4 amended: update_progress performs no catalog validation: when a
user is logged in and no record exists for (user, subject), it inserts a
record carrying whatever subject string the request supplied, whether or not
any catalog contains that key. -/
theorem claim_C4_no_catalog_check (st : AppState) (uid : Nat) (subj : String)
    (score : Int)
    (hs : st.session.user_id = some uid)
    (hn : st.progress.find? (fun r => r.user_id == uid && r.subject == subj) = none) :
    (update_progress st subj score).1.progress
      = st.progress ++ [⟨uid, subj, score⟩] := by
  simp [update_progress, hs, hn]

/-- Witness for the amended claim C4 at a concrete state. -/
theorem claim_C4_no_catalog_check_witness :
    (update_progress stLoggedIn "chemistry" 10).1.progress
      = stLoggedIn.progress ++ [⟨1, "chemistry", 10⟩] :=
  claim_C4_no_catalog_check stLoggedIn 1 "chemistry" 10 rfl rfl

/-- Looking a subject up in the course summaries is looking it up in the
catalog and summarising the entry. -/
theorem lookup_get_all_courses_info (quizzes : Catalog) (subj : String) :
    (get_all_courses_info quizzes).lookup subj
      = (quizzes.lookup subj).map course_summary := by
  induction quizzes with
  | nil => rfl
  | cons a tl ih =>
    obtain ⟨k, d⟩ := a
    cases hbe : subj == k with
    | true => simp [get_all_courses_info, List.lookup_cons, hbe]
    | false =>
      simp only [get_all_courses_info] at ih
      simp [get_all_courses_info, List.lookup_cons, hbe, ih]

/-- Claim C5 counterexample: for a catalog entry with every optional field
missing, the summary title defaults to the French string Sans titre, which
is not the string Untitled the claim states. -/
theorem claim_C5_counterexample :
    (get_all_courses_info [("x", [])]).lookup "x"
      = some [("title", .pstr "Sans titre"), ("description", .pstr ""),
          ("emoji", .pstr "❓"), ("professor", .pstr "N/A"),
          ("pdf_link", .pnone)] ∧
    ("Sans titre" : String) ≠ "Untitled" := by
  exact ⟨rfl, by decide⟩

/-- Claim C5 amended: for every catalog entry with missing optional fields
the summary fills in the defaults title Sans titre, description empty,
emoji the question mark, professor N/A. -/
theorem claim_C5_defaults (quizzes : Catalog) (subj : String) (e : Entry)
    (hl : quizzes.lookup subj = some e)
    (ht : e.lookup "title" = none) (hd : e.lookup "description" = none)
    (he : e.lookup "emoji" = none) (hp : e.lookup "professor" = none) :
    (get_all_courses_info quizzes).lookup subj
      = some [("title", .pstr "Sans titre"), ("description", .pstr ""),
          ("emoji", .pstr "❓"), ("professor", .pstr "N/A"),
          ("pdf_link", dget e "pdf_link" .pnone)] := by
  rw [lookup_get_all_courses_info, hl]
  simp [course_summary, dget, ht, hd, he, hp]

/-- Witness for the amended claim C5 on a one-entry catalog with all
optional fields missing. -/
theorem claim_C5_defaults_witness :
    (get_all_courses_info [("x", [])]).lookup "x"
      = some [("title", .pstr "Sans titre"), ("description", .pstr ""),
          ("emoji", .pstr "❓"), ("professor", .pstr "N/A"),
          ("pdf_link", dget [] "pdf_link" .pnone)] :=
  claim_C5_defaults [("x", [])] "x" [] rfl rfl rfl rfl rfl

/-- Claim C6: no entry of the course-summary mapping carries a questions
key, whatever the underlying catalog entry holds. -/
theorem claim_C6_no_questions_field (quizzes : Catalog) (subj : String) (e : Entry)
    (h : (subj, e) ∈ get_all_courses_info quizzes) :
    e.lookup "questions" = none := by
  simp only [get_all_courses_info, List.mem_map] at h
  obtain ⟨se, hmem, heq⟩ := h
  obtain ⟨h1, h2⟩ := Prod.mk.injEq .. ▸ heq
  rw [← h2]
  rfl

/-- Witness for claim C6: the summary of the math entry of the concrete
catalog, whose source entry does carry questions, has no questions key. -/
theorem claim_C6_no_questions_field_witness :
    (course_summary [("title", .pstr "Maths"),
        ("questions", .plist [.pstr "q1"])]).lookup "questions" = none :=
  claim_C6_no_questions_field exCatalog "math" _
    (by simp [get_all_courses_info, exCatalog])

/-- Claim C7: the quiz endpoint returns 401 when nobody is logged in, 500
when the catalog source is unreadable, 404 — an error body, not an empty
list — when the subject is absent from the catalog, and otherwise the
question sequence of that subject. -/
theorem claim_C7_get_quiz_outcomes (st : AppState) (src : Option Catalog)
    (subject : String) :
    (st.session.user_id = none →
      get_quiz st src subject
        = some ⟨401, .pdict [("error", .pstr "Non autorisé")]⟩) ∧
    (∀ uid, st.session.user_id = some uid → src = none →
      get_quiz st src subject
        = some ⟨500, .pdict [("error", .pstr "Fichier de quiz non trouvé")]⟩) ∧
    (∀ uid quizzes, st.session.user_id = some uid → src = some quizzes →
      quizzes.lookup subject = none →
      get_quiz st src subject
        = some ⟨404, .pdict [("error", .pstr "Quiz non trouvé")]⟩ ∧
      PyVal.pdict [("error", .pstr "Quiz non trouvé")] ≠ .plist []) ∧
    (∀ uid quizzes e qs, st.session.user_id = some uid → src = some quizzes →
      quizzes.lookup subject = some e → e.lookup "questions" = some qs →
      get_quiz st src subject = some ⟨200, qs⟩) := by
  refine ⟨?_, ?_, ?_, ?_⟩
  · intro hs
    simp [get_quiz, hs]
  · intro uid hs hf
    subst hf
    simp [get_quiz, hs]
  · intro uid quizzes hs hf hl
    subst hf
    refine ⟨by simp [get_quiz, hs, hl], fun hcon => by cases hcon⟩
  · intro uid quizzes e qs hs hf hl hq
    subst hf
    simp [get_quiz, hs, hl, hq]

/-- Witness for claim C7: the four outcomes at concrete states, the
one-subject catalog and concrete subjects. -/
theorem claim_C7_get_quiz_outcomes_witness :
    (get_quiz stAnon (some exCatalog) "math"
      = some ⟨401, .pdict [("error", .pstr "Non autorisé")]⟩) ∧
    (get_quiz stLoggedIn none "math"
      = some ⟨500, .pdict [("error", .pstr "Fichier de quiz non trouvé")]⟩) ∧
    (get_quiz stLoggedIn (some exCatalog) "history"
      = some ⟨404, .pdict [("error", .pstr "Quiz non trouvé")]⟩) ∧
    (get_quiz stLoggedIn (some exCatalog) "math"
      = some ⟨200, .plist [.pstr "q1"]⟩) :=
  ⟨(claim_C7_get_quiz_outcomes stAnon (some exCatalog) "math").1 rfl,
   (claim_C7_get_quiz_outcomes stLoggedIn none "math").2.1 1 rfl rfl,
   ((claim_C7_get_quiz_outcomes stLoggedIn (some exCatalog) "history").2.2.1
      1 exCatalog rfl rfl rfl).1,
   (claim_C7_get_quiz_outcomes stLoggedIn (some exCatalog) "math").2.2.2
      1 exCatalog [("title", .pstr "Maths"), ("questions", .plist [.pstr "q1"])]
      (.plist [.pstr "q1"]) rfl rfl rfl rfl⟩

/-- Claim C8: logout always succeeds and clears the session binding
unconditionally; afterwards check_session reports logged_in false and the
protected endpoints for app data and quizzes both answer 401, whatever the
catalog source and subject. -/
theorem claim_C8_logout_clears (st : AppState) (src : Option Catalog)
    (subject : String) :
    (logout st).2 = ⟨200, .pdict [("success", .pbool true)]⟩ ∧
    (logout st).1.session = ⟨none, none⟩ ∧
    check_session (logout st).1
      = ⟨200, .pdict [("logged_in", .pbool false)]⟩ ∧
    get_app_data (logout st).1 src
      = some ⟨401, .pdict [("error", .pstr "Non autorisé")]⟩ ∧
    get_quiz (logout st).1 src subject
      = some ⟨401, .pdict [("error", .pstr "Non autorisé")]⟩ :=
  ⟨rfl, rfl, rfl, rfl, rfl⟩

/-- Claim C10: a request for app data carrying a session whose bound user id
matches no user row is not rejected with 401: it succeeds with 200 and a
null user field. -/
theorem claim_C10_dangling_session (st : AppState) (quizzes : Catalog) (uid : Nat)
    (hs : st.session.user_id = some uid)
    (hu : st.users.find? (fun u => u.id == uid) = none) :
    get_app_data st (some quizzes)
      = some ⟨200, .pdict [("user", .pnone), ("courses", courses_py quizzes)]⟩ := by
  simp [get_app_data, hs, get_user_data, hu, optToPy]

/-- Witness for claim C10: a session bound to the nonexistent user id 99
still gets a 200 with a null user. -/
theorem claim_C10_dangling_session_witness :
    get_app_data stDangling (some exCatalog)
      = some ⟨200, .pdict [("user", .pnone), ("courses", courses_py exCatalog)]⟩ :=
  claim_C10_dangling_session stDangling exCatalog 99 rfl rfl

end SmartLearnHub
